import Mathlib

/-
Verification of the fusion-and-guardrail core of the fintechAISystem
repository: agents/signal_generator.py (TradingSignalGenerator),
agents/macro_detector.py (MacroRegimeDetector.classify_regime), and
backend/alerts.py (AlertSystem).

Modelling conventions:
- Python floats are modelled exactly over ℚ (the source performs plain
  arithmetic on small decimal constants).
- Python's built-in round() (round-half-to-even) is modelled by
  pyRoundInt / pyRound3.
- Regimes, signals and labels are the String values the source uses.
- Timestamps, logging, emoji report formatting and file I/O mechanics are
  elided; persisted files are modelled as explicit state fields.
- The numeric interpolation inside f-string message templates is elided:
  each template is kept as its fixed text without the interpolated numbers.
-/

namespace FintechAI

/-- Python's built-in `round` to an integer on an exact rational:
round-half-to-even ("banker's rounding"). -/
def pyRoundInt (q : ℚ) : ℤ :=
  let f : ℤ := Int.fdiv q.num (q.den : ℤ)  -- floor of q
  let r : ℚ := q - (f : ℚ)                  -- fractional part, in [0,1)
  if r < 1/2 then f
  else if 1/2 < r then f + 1
  else if f % 2 = 0 then f else f + 1

/-- Python's `round(q, 3)` on an exact rational. -/
def pyRound3 (q : ℚ) : ℚ := (pyRoundInt (q * 1000) : ℚ) / 1000

/-! ## agents/signal_generator.py -/

/-- The sentiment dict consumed by `generate_signal`
(keys `sentiment_score`, `overall_label`, `confidence`). -/
structure SentimentData where
  sentiment_score : ℚ
  overall_label : String
  confidence : ℚ
deriving DecidableEq, Repr

/-- The regime dict consumed by `generate_signal`
(keys `regime` and `confidence`; the source calls the latter
`macro_confidence` after extraction — named `regime_confidence` here). -/
structure MacroData where
  regime : String
  regime_confidence : ℚ
deriving DecidableEq, Repr

/-- `_calculate_alignment_score(sentiment_score, regime)`. -/
def calculateAlignmentScore (sentiment_score : ℚ) (regime : String) : ℚ :=
  if regime = "BULL" then sentiment_score
  else if regime = "BEAR" then -sentiment_score
  else |sentiment_score| * 0.5  -- TRANSITION (and any other value) falls here

/-- `_determine_signal`: the ordered raw-signal cascade, returning
(signal, confidence, reasoning).  The source's nested
`elif regime == 'TRANSITION': if ... elif ...` (which falls through to the
default) is flattened into two guarded branches, which is equivalent.
Reasoning templates are kept as their fixed prefixes. -/
def determineSignal (sentiment_score : ℚ) (sentiment_label : String)
    (sentiment_confidence : ℚ) (regime : String)
    (regime_confidence : ℚ) : String × ℚ × String :=
  let alignment_score := calculateAlignmentScore sentiment_score regime
  let _ := sentiment_label  -- used only inside the HOLD reasoning template
  if regime = "BULL" ∧ sentiment_score > 0.5 ∧ sentiment_confidence > 0.7 ∧
      alignment_score > 0.5 then
    ("BUY", min 0.95 ((sentiment_confidence + regime_confidence) / 2),
     "Strong BUY")
  else if regime = "BULL" ∧ sentiment_score > 0.2 ∧
      sentiment_confidence > 0.5 then
    ("BUY", (sentiment_confidence + regime_confidence + alignment_score + 1) / 4,
     "Moderate BUY")
  else if regime = "BEAR" ∧ sentiment_score < -0.5 ∧
      sentiment_confidence > 0.7 ∧ alignment_score > 0.5 then
    ("SELL", min 0.95 ((sentiment_confidence + regime_confidence) / 2),
     "Strong SELL")
  else if regime = "BEAR" ∧ sentiment_score < -0.2 ∧
      sentiment_confidence > 0.5 then
    ("SELL", (sentiment_confidence + regime_confidence + alignment_score + 1) / 4,
     "Moderate SELL")
  else if regime = "BEAR" ∧ sentiment_score > 0.4 ∧
      sentiment_confidence > 0.75 then
    ("BUY", sentiment_confidence * 0.7, "Contrarian BUY")
  else if regime = "BULL" ∧ sentiment_score < -0.4 ∧
      sentiment_confidence > 0.75 then
    ("SELL", sentiment_confidence * 0.7, "Contrarian SELL")
  else if regime = "TRANSITION" ∧ sentiment_score > 0.3 ∧
      sentiment_confidence > 0.7 then
    ("BUY", sentiment_confidence * 0.6, "Cautious BUY")
  else if regime = "TRANSITION" ∧ sentiment_score < -0.3 ∧
      sentiment_confidence > 0.7 then
    ("SELL", sentiment_confidence * 0.6, "Cautious SELL")
  else
    ("HOLD", max 0.4 ((sentiment_confidence + regime_confidence) / 2), "HOLD")

/-- `_calculate_divergence_risk(sentiment_score, regime)`. -/
def calculateDivergenceRisk (sentiment_score : ℚ) (regime : String) : ℚ :=
  if regime = "BULL" then
    if sentiment_score < 0 then |sentiment_score| else 0
  else if regime = "BEAR" then
    if sentiment_score > 0 then |sentiment_score| else 0
  else
    |sentiment_score| * 0.5  -- TRANSITION (and any other value) falls here

/-- The `risk_factors` list built inside `calculate_risk_score`:
sentiment uncertainty, regime instability, divergence risk, optionally a
normalized volatility, and the regime base risk (the final `else` of the
source treats every non-BEAR non-TRANSITION regime as BULL). -/
def riskFactors (sentiment_score sentiment_confidence : ℚ) (regime : String)
    (regime_confidence : ℚ) (volatility : Option ℚ) : List ℚ :=
  [1 - sentiment_confidence,
   1 - regime_confidence,
   calculateDivergenceRisk sentiment_score regime]
  ++ (match volatility with
      | some v => [min 1.0 (v / 0.5)]
      | none => [])
  ++ [if regime = "BEAR" then 0.7
      else if regime = "TRANSITION" then 0.5
      else 0.3]

/-- `calculate_risk_score`: the mean of the risk factors, clamped to [0,1]. -/
def calculateRiskScore (sentiment_score sentiment_confidence : ℚ)
    (regime : String) (regime_confidence : ℚ) (volatility : Option ℚ) : ℚ :=
  let fs := riskFactors sentiment_score sentiment_confidence regime
    regime_confidence volatility
  max 0 (min 1 (fs.sum / (fs.length : ℚ)))

/-- `_calculate_position_size(signal, confidence, risk_score, regime)`. -/
def calculatePositionSize (signal : String) (confidence risk_score : ℚ)
    (regime : String) : ℤ :=
  if signal = "HOLD" then 0
  else
    let base_size := confidence * 10
    let risk_adjustment := (1 - risk_score) * 5
    let regime_multiplier : ℚ :=
      if regime = "BULL" ∧ signal = "BUY" then 1.2
      else if regime = "BEAR" ∧ signal = "SELL" then 1.1
      else if regime = "TRANSITION" then 0.7
      else 0.6  -- contrarian trades
    let position_size := (base_size + risk_adjustment) / 2 * regime_multiplier
    max 1 (min 10 (pyRoundInt position_size))

/-- The fixed override note of validation rule 1 (BEAR + BUY + low
confidence / strong bearish regime). -/
def vNoteBearBuy : String :=
  "OVERRIDE: BUY signal downgraded to HOLD - bearish regime with insufficient confidence for contrarian position"

/-- The override note of validation rule 2 (very high risk); the
`{risk_score:.2f}` interpolation of the source template is elided. -/
def vNoteRisk (signal : String) : String :=
  "OVERRIDE: " ++ signal ++ " signal downgraded to HOLD - risk score too high"

/-- The override note of validation rule 3 (SELL contrarian to a strong
bullish regime); the confidence interpolation is elided. -/
def vNoteBullSell : String :=
  "OVERRIDE: SELL signal downgraded to HOLD - contrarian to strong bullish regime"

/-- The override note of the second half of rule 3 (BUY contrarian to a
strong bearish regime); the confidence interpolation is elided. -/
def vNoteBearBuyStrong : String :=
  "OVERRIDE: BUY signal downgraded to HOLD - contrarian to strong bearish regime"

/-- The override note of validation rule 4 (confidence too low); the
confidence interpolation is elided. -/
def vNoteLowConf (signal : String) : String :=
  "OVERRIDE: " ++ signal ++ " signal downgraded to HOLD - confidence too low"

/-- The note recorded when no override fires. -/
def vNotePassed : String := "Signal passed validation - no overrides applied"

/-- `_validate_signal`: each override rule is an independent `if` that
reassigns `validated_signal` to HOLD and appends its note; the sequential
reassignments of the source are modelled by successive `let` rebindings.
The source joins the notes with "; "; the note list itself is returned. -/
def validateSignal (signal : String) (confidence : ℚ) (regime : String)
    (regime_confidence : ℚ) (risk_score : ℚ) : String × List String :=
  let notes0 : List String := []
  let v0 := signal
  -- Rule 1: BEAR regime + low confidence
  let fire1 := regime = "BEAR" ∧ signal = "BUY" ∧
    (confidence < 0.6 ∨ regime_confidence > 0.8)
  let v1 := if fire1 then "HOLD" else v0
  let notes1 := if fire1 then notes0 ++ [vNoteBearBuy] else notes0
  -- Rule 2: very high risk
  let fire2 := risk_score > 0.8 ∧ signal ≠ "HOLD"
  let v2 := if fire2 then "HOLD" else v1
  let notes2 := if fire2 then notes1 ++ [vNoteRisk signal] else notes1
  -- Rule 3: contrarian trade with high regime confidence (both directions)
  let fire3 := regime = "BULL" ∧ signal = "SELL" ∧ regime_confidence > 0.85
  let v3 := if fire3 then "HOLD" else v2
  let notes3 := if fire3 then notes2 ++ [vNoteBullSell] else notes2
  let fire4 := regime = "BEAR" ∧ signal = "BUY" ∧ regime_confidence > 0.85
  let v4 := if fire4 then "HOLD" else v3
  let notes4 := if fire4 then notes3 ++ [vNoteBearBuyStrong] else notes3
  -- Rule 4: low confidence signals
  let fire5 := confidence < 0.4 ∧ signal ≠ "HOLD"
  let v5 := if fire5 then "HOLD" else v4
  let notes5 := if fire5 then notes4 ++ [vNoteLowConf signal] else notes4
  let notes := if notes5 = [] then [vNotePassed] else notes5
  (v5, notes)

/-- The result dict of `generate_signal` (the `timestamp` field is
elided; the `factors` sub-dict is flattened into `factors_*` fields). -/
structure SignalResult where
  signal : String
  confidence : ℚ
  reasoning : String
  position_size : ℤ
  risk_score : ℚ
  validation_notes : List String
  factors_sentiment_score : ℚ
  factors_sentiment_label : String
  factors_sentiment_confidence : ℚ
  factors_regime : String
  factors_regime_confidence : ℚ
deriving DecidableEq, Repr

/-- `generate_signal(sentiment_data, macro_data, market_data)`.
`market_data` is modelled by its only consumed content, the optional
`volatility` value.  Note the order of operations of the source: the risk
score and the raw cascade result are computed first, the position size is
computed from the *raw* signal, and only then is the validation layer
applied; the result carries the validated signal next to the raw-signal
confidence, reasoning, risk score and position size. -/
def generateSignal (sentiment_data : SentimentData) (macro_data : MacroData)
    (market_data : Option ℚ) : SignalResult :=
  let sentiment_score := sentiment_data.sentiment_score
  let sentiment_label := sentiment_data.overall_label
  let sentiment_confidence := sentiment_data.confidence
  let regime := macro_data.regime
  let regime_confidence := macro_data.regime_confidence
  let risk_score := calculateRiskScore sentiment_score sentiment_confidence
    regime regime_confidence market_data
  let raw := determineSignal sentiment_score sentiment_label
    sentiment_confidence regime regime_confidence
  let position_size := calculatePositionSize raw.1 raw.2.1 risk_score regime
  let validated := validateSignal raw.1 raw.2.1 regime regime_confidence
    risk_score
  { signal := validated.1
    confidence := pyRound3 raw.2.1
    reasoning := raw.2.2
    position_size := position_size
    risk_score := pyRound3 risk_score
    validation_notes := validated.2
    factors_sentiment_score := sentiment_score
    factors_sentiment_label := sentiment_label
    factors_sentiment_confidence := sentiment_confidence
    factors_regime := regime
    factors_regime_confidence := regime_confidence }

/-- The risk-factor list as the specification's risk-score claim words it
(available factors only; the regime is restricted to the three documented
values when this is compared with `riskFactors`): `1-sentConf`,
`1-regimeConf`, `divergenceRisk(score,regime)` written out per the claim's
case list, optionally `min(1, volatility/0.5)`, and the fixed regime base
risk.  This definition follows the spec's words for the refinement
comparison; `riskFactors` above follows the source. -/
def riskFactorsSpec (score sentConf regimeConf : ℚ) (regime : String)
    (vol : Option ℚ) : List ℚ :=
  [1 - sentConf, 1 - regimeConf,
   if regime = "BULL" ∧ score < 0 then |score|
   else if regime = "BEAR" ∧ score > 0 then |score|
   else if regime = "TRANSITION" then |score| * 0.5 else 0]
  ++ (match vol with
      | some v => [min 1.0 (v / 0.5)]
      | none => [])
  ++ [if regime = "BEAR" then (0.7 : ℚ)
      else if regime = "TRANSITION" then 0.5 else 0.3]

/-! ## agents/macro_detector.py — MacroRegimeDetector.classify_regime -/

/-- The indicator snapshot read by `classify_regime`.  The source accesses
`VIX`, `unemployment_rate`, `inflation_rate` and `fed_funds_rate` directly
(a missing key raises), while `gdp_growth` is read with
`indicators.get("gdp_growth", 0)`, so only it is optional. -/
structure MacroIndicators where
  vix : ℚ
  unemployment_rate : ℚ
  inflation_rate : ℚ
  fed_funds_rate : ℚ
  gdp_growth : Option ℚ
deriving DecidableEq, Repr

/-- VIX block: `< THRESHOLDS["VIX"]["moderate"]` (20) gives +2 bullish,
`> THRESHOLDS["VIX"]["elevated"]` (25) gives +2 bearish.
Votes are returned as (bullish, bearish) increments. -/
def vixVotes (vix : ℚ) : ℕ × ℕ :=
  if vix < 20 then (2, 0)
  else if vix > 25 then (0, 2)
  else (0, 0)

/-- Unemployment block: `< "normal"` (4.5) gives +2 bullish, `> "elevated"`
(5.0) gives +2 bearish; the remaining band gives +1 bullish. -/
def unemploymentVotes (unemployment : ℚ) : ℕ × ℕ :=
  if unemployment < 4.5 then (2, 0)
  else if unemployment > 5.0 then (0, 2)
  else (1, 0)

/-- Inflation block: `≤ "target"` (3.5) gives +2 bullish, `> "elevated"`
(4.0) gives +2 bearish; the remaining band gives +1 bearish. -/
def inflationVotes (inflation : ℚ) : ℕ × ℕ :=
  if inflation ≤ 3.5 then (2, 0)
  else if inflation > 4.0 then (0, 2)
  else (0, 1)

/-- Fed rate block: `< "neutral"` (4.0) gives +1 bullish,
`> "restrictive"` (5.0) gives +1 bearish. -/
def fedRateVotes (fed_rate : ℚ) : ℕ × ℕ :=
  if fed_rate < 4.0 then (1, 0)
  else if fed_rate > 5.0 then (0, 1)
  else (0, 0)

/-- GDP growth block: `> 2.5` gives +1 bullish, `< 1.0` gives +1 bearish. -/
def gdpVotes (gdp_growth : ℚ) : ℕ × ℕ :=
  if gdp_growth > 2.5 then (1, 0)
  else if gdp_growth < 1.0 then (0, 1)
  else (0, 0)

/-- The `bullish_signals` tally accumulated by `classify_regime`; a missing
`gdp_growth` is read as `0` (`indicators.get("gdp_growth", 0)`). -/
def bullishSignals (ind : MacroIndicators) : ℕ :=
  (vixVotes ind.vix).1 + (unemploymentVotes ind.unemployment_rate).1 +
  (inflationVotes ind.inflation_rate).1 + (fedRateVotes ind.fed_funds_rate).1 +
  (gdpVotes (ind.gdp_growth.getD 0)).1

/-- The `bearish_signals` tally accumulated by `classify_regime`. -/
def bearishSignals (ind : MacroIndicators) : ℕ :=
  (vixVotes ind.vix).2 + (unemploymentVotes ind.unemployment_rate).2 +
  (inflationVotes ind.inflation_rate).2 + (fedRateVotes ind.fed_funds_rate).2 +
  (gdpVotes (ind.gdp_growth.getD 0)).2

/-- The classification result of `classify_regime` (the `reasoning` lines,
the echoed `indicators` and the `timestamp` are elided; the `signals`
sub-dict is flattened). -/
structure RegimeResult where
  regime : String
  confidence : ℚ
  bullish : ℕ
  bearish : ℕ
  bullish_ratio : ℚ
deriving DecidableEq, Repr

/-- `classify_regime`: weighted voting followed by ratio classification.
`bullish_ratio` falls back to 0 when both tallies are zero; the stored
`confidence` and `bullish_ratio` are rounded to three decimals as in the
source's result dict. -/
def classifyRegime (ind : MacroIndicators) : RegimeResult :=
  let bullish_signals := bullishSignals ind
  let bearish_signals := bearishSignals ind
  let total_signals := bullish_signals + bearish_signals
  let bullish_ratio : ℚ :=
    if total_signals > 0 then (bullish_signals : ℚ) / (total_signals : ℚ)
    else 0
  let rc : String × ℚ :=
    if bullish_ratio ≥ 0.65 then ("BULL", bullish_ratio)
    else if bullish_ratio ≤ 0.35 then ("BEAR", 1 - bullish_ratio)
    else ("TRANSITION", 1 - |0.5 - bullish_ratio| * 2)
  { regime := rc.1
    confidence := pyRound3 rc.2
    bullish := bullish_signals
    bearish := bearish_signals
    bullish_ratio := pyRound3 bullish_ratio }

/-- Modelled from the spec: the absent-signal semantics §3 claims for a
missing numeric field — "missing treated as absent signal, not zero" — a
missing `gdp_growth` contributes no vote to either tally.  The source
instead defaults it to 0; this definition exists only to compare the two. -/
def gdpVotesAbsent (gdp_growth : Option ℚ) : ℕ × ℕ :=
  match gdp_growth with
  | some g => gdpVotes g
  | none => (0, 0)

/-! ## backend/alerts.py — AlertSystem -/

/-- The two pieces of cross-call state of `AlertSystem`:
`previous_regime` is the in-memory `self.previous_regime` (loaded from the
`last_regime.json` file once, in `__init__`), and `saved_regime` is the
regime currently stored in that file (written by `_save_regime`). -/
structure AlertState where
  previous_regime : Option String
  saved_regime : Option String
deriving DecidableEq, Repr

/-- The fields of the `analysis_result` dict that `check_for_alerts`
consumes (`sentiment` and `macro` sub-dicts flattened; `regime` and
`recommendation` are optional keys read with `.get`). -/
structure AnalysisResult where
  ticker : String
  sentiment_score : ℚ
  sentiment_label : String
  sentiment_confidence : ℚ
  regime : Option String
  recommendation : Option String
deriving DecidableEq, Repr

/-- An alert event (its `message`, `details` and `timestamp` are elided;
`ticker` is `none` for the market-wide REGIME_CHANGE alert). -/
structure Alert where
  type : String
  severity : String
  ticker : Option String
deriving DecidableEq, Repr

/-- `check_for_alerts(analysis_result)`: evaluates the five alert rules in
order and returns the emitted alerts together with the updated state.
Rule 3 (REGIME_CHANGE) calls `_save_regime(regime)`, which rewrites the
file — but does not touch `self.previous_regime`; only the
first-run branch at the end of the method (`if regime and not
self.previous_regime`) sets both.  Truthiness of the regime/label strings
is modelled by `Option` presence (the empty-string edge is elided). -/
def checkForAlerts (st : AlertState) (ar : AnalysisResult) :
    List Alert × AlertState :=
  -- 1. Extreme Sentiment Alert
  let extreme : List Alert :=
    if |ar.sentiment_score| > 0.8 then
      [{ type := "EXTREME_SENTIMENT", severity := "HIGH", ticker := some ar.ticker }]
    else []
  -- 2. Sentiment-Macro Divergence Alert (the source compares
  -- sentiment_label.lower(); the labels are modelled as already lowercase)
  let divergence : List Alert :=
    match ar.regime with
    | some regime =>
      if (regime = "BULL" ∧ ar.sentiment_label = "negative") ∨
         (regime = "BEAR" ∧ ar.sentiment_label = "positive") then
        [{ type := "SENTIMENT_DIVERGENCE", severity := "MEDIUM", ticker := some ar.ticker }]
      else []
    | none => []
  -- 3. Regime Change Alert: fires on regime ≠ self.previous_regime and
  -- rewrites the persisted file (second component), not the memory.
  let regimeChange : List Alert × Option String :=
    match ar.regime, st.previous_regime with
    | some regime, some prev =>
      if regime ≠ prev then
        ([{ type := "REGIME_CHANGE", severity := "CRITICAL", ticker := none }], some regime)
      else ([], st.saved_regime)
    | _, _ => ([], st.saved_regime)
  -- 4. High Confidence Alert
  let highConf : List Alert :=
    if ar.sentiment_confidence > 0.9 then
      [{ type := "HIGH_CONFIDENCE", severity := "LOW", ticker := some ar.ticker }]
    else []
  -- 5. Trading Recommendation Alert
  let trading : List Alert :=
    match ar.recommendation with
    | some r =>
      if r = "FAVORABLE" then
        [{ type := "TRADING_SIGNAL", severity := "MEDIUM", ticker := some ar.ticker }]
      else if r = "AVOID" then
        [{ type := "TRADING_SIGNAL", severity := "HIGH", ticker := some ar.ticker }]
      else []
    | none => []
  let alerts := extreme ++ divergence ++ regimeChange.1 ++ highConf ++ trading
  -- Save regime for next check (first-run baseline): only this branch
  -- updates the in-memory previous_regime.
  let st' : AlertState :=
    match ar.regime, st.previous_regime with
    | some regime, none => { previous_regime := some regime, saved_regime := some regime }
    | _, _ => { previous_regime := st.previous_regime, saved_regime := regimeChange.2 }
  (alerts, st')

/-- `save_alert_history(alerts, ...)`: returns early when `alerts` is
empty; otherwise appends the new entries to the loaded history and keeps
the last 1000 (`history = history[-1000:]`).  Entries are kept abstract. -/
def saveAlertHistory {α : Type} (history : List α) (alerts : List α) : List α :=
  if alerts.isEmpty then history
  else
    let history := history ++ alerts
    history.drop (history.length - 1000)

/-! ## Theorems about the claims -/

section Claims

-- Core's Rat arithmetic is `@[irreducible]`, which blocks the `decide`
-- front-end (the kernel itself reduces it); make it visible locally.
attribute [local semireducible] Rat.add Rat.sub Rat.mul Rat.inv Rat.ofScientific

/-- C1 counterexample: for sentiment {score 0.75, positive, confidence
0.85} and regime {BEAR, confidence 0.90} the raw cascade yields a
Contrarian BUY which validation overrides to HOLD, yet the returned
positionSize is 3, not 0 — so a returned HOLD can carry a non-zero
positionSize, contradicting the claim as stated. -/
theorem positionSize_retained_after_override_cex :
    (generateSignal ⟨0.75, "positive", 0.85⟩ ⟨"BEAR", 0.90⟩ none).signal = "HOLD" ∧
    (generateSignal ⟨0.75, "positive", 0.85⟩ ⟨"BEAR", 0.90⟩ none).position_size = 3 ∧
    (determineSignal 0.75 "positive" 0.85 "BEAR" 0.90).1 = "BUY" := by
  decide

/-- C1 (amended): positionSize is computed from the raw pre-validation
signal: it is 0 exactly when the raw cascade signal is HOLD, and lies in
[1,10] otherwise — even when validation then overrides the final signal to
HOLD, in which case the pre-override value is retained. -/
theorem positionSize_zero_iff_raw_hold (sd : SentimentData) (md : MacroData)
    (mkt : Option ℚ) :
    ((generateSignal sd md mkt).position_size = 0 ↔
      (determineSignal sd.sentiment_score sd.overall_label sd.confidence
        md.regime md.regime_confidence).1 = "HOLD") ∧
    ((determineSignal sd.sentiment_score sd.overall_label sd.confidence
        md.regime md.regime_confidence).1 ≠ "HOLD" →
      1 ≤ (generateSignal sd md mkt).position_size ∧
      (generateSignal sd md mkt).position_size ≤ 10) := by
  have hps : (generateSignal sd md mkt).position_size =
      calculatePositionSize
        (determineSignal sd.sentiment_score sd.overall_label sd.confidence
          md.regime md.regime_confidence).1
        (determineSignal sd.sentiment_score sd.overall_label sd.confidence
          md.regime md.regime_confidence).2.1
        (calculateRiskScore sd.sentiment_score sd.confidence md.regime
          md.regime_confidence mkt) md.regime := rfl
  rw [hps]
  by_cases h : (determineSignal sd.sentiment_score sd.overall_label
      sd.confidence md.regime md.regime_confidence).1 = "HOLD"
  · simp [calculatePositionSize, h]
  · have h1 : 1 ≤ calculatePositionSize
        (determineSignal sd.sentiment_score sd.overall_label sd.confidence
          md.regime md.regime_confidence).1
        (determineSignal sd.sentiment_score sd.overall_label sd.confidence
          md.regime md.regime_confidence).2.1
        (calculateRiskScore sd.sentiment_score sd.confidence md.regime
          md.regime_confidence mkt) md.regime := by
      simp only [calculatePositionSize, if_neg h]
      exact le_max_left 1 _
    have h10 : calculatePositionSize
        (determineSignal sd.sentiment_score sd.overall_label sd.confidence
          md.regime md.regime_confidence).1
        (determineSignal sd.sentiment_score sd.overall_label sd.confidence
          md.regime md.regime_confidence).2.1
        (calculateRiskScore sd.sentiment_score sd.confidence md.regime
          md.regime_confidence mkt) md.regime ≤ 10 := by
      simp only [calculatePositionSize, if_neg h]
      exact max_le (by norm_num) (min_le_left 10 _)
    constructor
    · constructor
      · intro h0
        omega
      · intro hc
        exact absurd hc h
    · intro _
      exact ⟨h1, h10⟩

/-- C1 witness: at the strong-BUY input the raw signal is BUY and the
returned position size lies in [1,10]. -/
theorem positionSize_zero_iff_raw_hold_witness :
    (determineSignal 0.75 "positive" 0.85 "BULL" 0.80).1 ≠ "HOLD" ∧
    1 ≤ (generateSignal ⟨0.75, "positive", 0.85⟩ ⟨"BULL", 0.80⟩ none).position_size ∧
    (generateSignal ⟨0.75, "positive", 0.85⟩ ⟨"BULL", 0.80⟩ none).position_size ≤ 10 :=
  ⟨by decide,
   (positionSize_zero_iff_raw_hold ⟨0.75, "positive", 0.85⟩ ⟨"BULL", 0.80⟩ none).2
     (by decide)⟩

/-- C10: whenever the validation layer changes the signal (the returned
signal is HOLD while the raw cascade signal is not), every other returned
field — confidence, reasoning, risk score, position size and the echoed
factors — is exactly the value computed for the raw pre-override signal. -/
theorem override_preserves_other_fields (sd : SentimentData) (md : MacroData)
    (mkt : Option ℚ) :
    (generateSignal sd md mkt).signal = "HOLD" →
    (determineSignal sd.sentiment_score sd.overall_label sd.confidence
      md.regime md.regime_confidence).1 ≠ "HOLD" →
    ((generateSignal sd md mkt).confidence =
       pyRound3 (determineSignal sd.sentiment_score sd.overall_label
         sd.confidence md.regime md.regime_confidence).2.1 ∧
     (generateSignal sd md mkt).reasoning =
       (determineSignal sd.sentiment_score sd.overall_label sd.confidence
         md.regime md.regime_confidence).2.2 ∧
     (generateSignal sd md mkt).risk_score =
       pyRound3 (calculateRiskScore sd.sentiment_score sd.confidence
         md.regime md.regime_confidence mkt) ∧
     (generateSignal sd md mkt).position_size =
       calculatePositionSize
         (determineSignal sd.sentiment_score sd.overall_label sd.confidence
           md.regime md.regime_confidence).1
         (determineSignal sd.sentiment_score sd.overall_label sd.confidence
           md.regime md.regime_confidence).2.1
         (calculateRiskScore sd.sentiment_score sd.confidence md.regime
           md.regime_confidence mkt) md.regime ∧
     (generateSignal sd md mkt).factors_sentiment_score = sd.sentiment_score ∧
     (generateSignal sd md mkt).factors_sentiment_label = sd.overall_label ∧
     (generateSignal sd md mkt).factors_sentiment_confidence = sd.confidence ∧
     (generateSignal sd md mkt).factors_regime = md.regime ∧
     (generateSignal sd md mkt).factors_regime_confidence = md.regime_confidence) :=
  fun _ _ => ⟨rfl, rfl, rfl, rfl, rfl, rfl, rfl, rfl, rfl⟩

/-- C10 witness: the contrarian-BUY input is overridden to HOLD and every
other field equals the raw-signal computation. -/
theorem override_preserves_other_fields_witness :
    (generateSignal ⟨0.75, "positive", 0.85⟩ ⟨"BEAR", 0.90⟩ none).signal = "HOLD" ∧
    (generateSignal ⟨0.75, "positive", 0.85⟩ ⟨"BEAR", 0.90⟩ none).confidence =
      pyRound3 (determineSignal 0.75 "positive" 0.85 "BEAR" 0.90).2.1 ∧
    (generateSignal ⟨0.75, "positive", 0.85⟩ ⟨"BEAR", 0.90⟩ none).position_size =
      calculatePositionSize (determineSignal 0.75 "positive" 0.85 "BEAR" 0.90).1
        (determineSignal 0.75 "positive" 0.85 "BEAR" 0.90).2.1
        (calculateRiskScore 0.75 0.85 "BEAR" 0.90 none) "BEAR" :=
  ⟨by decide,
   (override_preserves_other_fields ⟨0.75, "positive", 0.85⟩ ⟨"BEAR", 0.90⟩ none
     (by decide) (by decide)).1,
   (override_preserves_other_fields ⟨0.75, "positive", 0.85⟩ ⟨"BEAR", 0.90⟩ none
     (by decide) (by decide)).2.2.2.1⟩

/-- C3: the raw-signal cascade is evaluated in the fixed order Strong BUY,
Moderate BUY, Strong SELL, Moderate SELL, Contrarian BUY, Contrarian SELL,
Transition cautious BUY, Transition cautious SELL, default HOLD — first
match wins and each branch returns exactly its stated confidence formula;
in particular, for sentiment {score 0.75, positive, confidence 0.85} and
regime {BULL, confidence 0.80} the result is BUY with confidence 0.825 and
the single "no overrides applied" validation note. -/
theorem cascade_order_first_match (score : ℚ) (label : String)
    (sentConf : ℚ) (regime : String) (regimeConf : ℚ) :
    ((regime = "BULL" ∧ score > 0.5 ∧ sentConf > 0.7 ∧
        calculateAlignmentScore score regime > 0.5) →
      ((determineSignal score label sentConf regime regimeConf).1,
       (determineSignal score label sentConf regime regimeConf).2.1) =
        ("BUY", min 0.95 ((sentConf + regimeConf) / 2))) ∧
    (¬(regime = "BULL" ∧ score > 0.5 ∧ sentConf > 0.7 ∧
        calculateAlignmentScore score regime > 0.5) →
     (regime = "BULL" ∧ score > 0.2 ∧ sentConf > 0.5) →
      ((determineSignal score label sentConf regime regimeConf).1,
       (determineSignal score label sentConf regime regimeConf).2.1) =
        ("BUY", (sentConf + regimeConf + calculateAlignmentScore score regime + 1) / 4)) ∧
    (¬(regime = "BULL" ∧ score > 0.5 ∧ sentConf > 0.7 ∧
        calculateAlignmentScore score regime > 0.5) →
     ¬(regime = "BULL" ∧ score > 0.2 ∧ sentConf > 0.5) →
     (regime = "BEAR" ∧ score < -0.5 ∧ sentConf > 0.7 ∧
        calculateAlignmentScore score regime > 0.5) →
      ((determineSignal score label sentConf regime regimeConf).1,
       (determineSignal score label sentConf regime regimeConf).2.1) =
        ("SELL", min 0.95 ((sentConf + regimeConf) / 2))) ∧
    (¬(regime = "BULL" ∧ score > 0.5 ∧ sentConf > 0.7 ∧
        calculateAlignmentScore score regime > 0.5) →
     ¬(regime = "BULL" ∧ score > 0.2 ∧ sentConf > 0.5) →
     ¬(regime = "BEAR" ∧ score < -0.5 ∧ sentConf > 0.7 ∧
        calculateAlignmentScore score regime > 0.5) →
     (regime = "BEAR" ∧ score < -0.2 ∧ sentConf > 0.5) →
      ((determineSignal score label sentConf regime regimeConf).1,
       (determineSignal score label sentConf regime regimeConf).2.1) =
        ("SELL", (sentConf + regimeConf + calculateAlignmentScore score regime + 1) / 4)) ∧
    (¬(regime = "BULL" ∧ score > 0.5 ∧ sentConf > 0.7 ∧
        calculateAlignmentScore score regime > 0.5) →
     ¬(regime = "BULL" ∧ score > 0.2 ∧ sentConf > 0.5) →
     ¬(regime = "BEAR" ∧ score < -0.5 ∧ sentConf > 0.7 ∧
        calculateAlignmentScore score regime > 0.5) →
     ¬(regime = "BEAR" ∧ score < -0.2 ∧ sentConf > 0.5) →
     (regime = "BEAR" ∧ score > 0.4 ∧ sentConf > 0.75) →
      ((determineSignal score label sentConf regime regimeConf).1,
       (determineSignal score label sentConf regime regimeConf).2.1) =
        ("BUY", sentConf * 0.7)) ∧
    (¬(regime = "BULL" ∧ score > 0.5 ∧ sentConf > 0.7 ∧
        calculateAlignmentScore score regime > 0.5) →
     ¬(regime = "BULL" ∧ score > 0.2 ∧ sentConf > 0.5) →
     ¬(regime = "BEAR" ∧ score < -0.5 ∧ sentConf > 0.7 ∧
        calculateAlignmentScore score regime > 0.5) →
     ¬(regime = "BEAR" ∧ score < -0.2 ∧ sentConf > 0.5) →
     ¬(regime = "BEAR" ∧ score > 0.4 ∧ sentConf > 0.75) →
     (regime = "BULL" ∧ score < -0.4 ∧ sentConf > 0.75) →
      ((determineSignal score label sentConf regime regimeConf).1,
       (determineSignal score label sentConf regime regimeConf).2.1) =
        ("SELL", sentConf * 0.7)) ∧
    (¬(regime = "BULL" ∧ score > 0.5 ∧ sentConf > 0.7 ∧
        calculateAlignmentScore score regime > 0.5) →
     ¬(regime = "BULL" ∧ score > 0.2 ∧ sentConf > 0.5) →
     ¬(regime = "BEAR" ∧ score < -0.5 ∧ sentConf > 0.7 ∧
        calculateAlignmentScore score regime > 0.5) →
     ¬(regime = "BEAR" ∧ score < -0.2 ∧ sentConf > 0.5) →
     ¬(regime = "BEAR" ∧ score > 0.4 ∧ sentConf > 0.75) →
     ¬(regime = "BULL" ∧ score < -0.4 ∧ sentConf > 0.75) →
     (regime = "TRANSITION" ∧ score > 0.3 ∧ sentConf > 0.7) →
      ((determineSignal score label sentConf regime regimeConf).1,
       (determineSignal score label sentConf regime regimeConf).2.1) =
        ("BUY", sentConf * 0.6)) ∧
    (¬(regime = "BULL" ∧ score > 0.5 ∧ sentConf > 0.7 ∧
        calculateAlignmentScore score regime > 0.5) →
     ¬(regime = "BULL" ∧ score > 0.2 ∧ sentConf > 0.5) →
     ¬(regime = "BEAR" ∧ score < -0.5 ∧ sentConf > 0.7 ∧
        calculateAlignmentScore score regime > 0.5) →
     ¬(regime = "BEAR" ∧ score < -0.2 ∧ sentConf > 0.5) →
     ¬(regime = "BEAR" ∧ score > 0.4 ∧ sentConf > 0.75) →
     ¬(regime = "BULL" ∧ score < -0.4 ∧ sentConf > 0.75) →
     ¬(regime = "TRANSITION" ∧ score > 0.3 ∧ sentConf > 0.7) →
     (regime = "TRANSITION" ∧ score < -0.3 ∧ sentConf > 0.7) →
      ((determineSignal score label sentConf regime regimeConf).1,
       (determineSignal score label sentConf regime regimeConf).2.1) =
        ("SELL", sentConf * 0.6)) ∧
    (¬(regime = "BULL" ∧ score > 0.5 ∧ sentConf > 0.7 ∧
        calculateAlignmentScore score regime > 0.5) →
     ¬(regime = "BULL" ∧ score > 0.2 ∧ sentConf > 0.5) →
     ¬(regime = "BEAR" ∧ score < -0.5 ∧ sentConf > 0.7 ∧
        calculateAlignmentScore score regime > 0.5) →
     ¬(regime = "BEAR" ∧ score < -0.2 ∧ sentConf > 0.5) →
     ¬(regime = "BEAR" ∧ score > 0.4 ∧ sentConf > 0.75) →
     ¬(regime = "BULL" ∧ score < -0.4 ∧ sentConf > 0.75) →
     ¬(regime = "TRANSITION" ∧ score > 0.3 ∧ sentConf > 0.7) →
     ¬(regime = "TRANSITION" ∧ score < -0.3 ∧ sentConf > 0.7) →
      ((determineSignal score label sentConf regime regimeConf).1,
       (determineSignal score label sentConf regime regimeConf).2.1) =
        ("HOLD", max 0.4 ((sentConf + regimeConf) / 2))) ∧
    ((generateSignal ⟨0.75, "positive", 0.85⟩ ⟨"BULL", 0.80⟩ none).signal = "BUY" ∧
     (generateSignal ⟨0.75, "positive", 0.85⟩ ⟨"BULL", 0.80⟩ none).confidence = 0.825 ∧
     (generateSignal ⟨0.75, "positive", 0.85⟩ ⟨"BULL", 0.80⟩ none).validation_notes =
       [vNotePassed]) := by
  refine ⟨?_, ?_, ?_, ?_, ?_, ?_, ?_, ?_, ?_, by decide⟩ <;>
    · intros
      simp only [determineSignal]
      split_ifs <;> simp_all

/-- C3 witness: the Strong BUY branch fires at the documented input and
returns confidence min(0.95, (0.85+0.80)/2) = 0.825. -/
theorem cascade_order_first_match_witness :
    ((determineSignal 0.75 "positive" 0.85 "BULL" 0.80).1,
     (determineSignal 0.75 "positive" 0.85 "BULL" 0.80).2.1) =
      ("BUY", min 0.95 ((0.85 + 0.80) / 2)) :=
  (cascade_order_first_match 0.75 "positive" 0.85 "BULL" 0.80).1 (by decide)

/-- C4: the five override rules are evaluated independently against the
raw cascade result — every matching rule contributes its note, a single
"no overrides applied" note is recorded when none match, and the final
signal is HOLD exactly when at least one rule fired (otherwise it is the
raw signal; a raw HOLD fires no rule and passes through unchanged). -/
theorem validation_rules_independent (signal : String) (confidence : ℚ)
    (regime : String) (regimeConf risk : ℚ) :
    (((regime = "BEAR" ∧ signal = "BUY" ∧ (confidence < 0.6 ∨ regimeConf > 0.8)) ∨
      (risk > 0.8 ∧ signal ≠ "HOLD") ∨
      (regime = "BULL" ∧ signal = "SELL" ∧ regimeConf > 0.85) ∨
      (regime = "BEAR" ∧ signal = "BUY" ∧ regimeConf > 0.85) ∨
      (confidence < 0.4 ∧ signal ≠ "HOLD")) →
      (validateSignal signal confidence regime regimeConf risk).1 = "HOLD" ∧
      (validateSignal signal confidence regime regimeConf risk).2 =
        (if regime = "BEAR" ∧ signal = "BUY" ∧ (confidence < 0.6 ∨ regimeConf > 0.8)
         then [vNoteBearBuy] else []) ++
        (if risk > 0.8 ∧ signal ≠ "HOLD" then [vNoteRisk signal] else []) ++
        (if regime = "BULL" ∧ signal = "SELL" ∧ regimeConf > 0.85
         then [vNoteBullSell] else []) ++
        (if regime = "BEAR" ∧ signal = "BUY" ∧ regimeConf > 0.85
         then [vNoteBearBuyStrong] else []) ++
        (if confidence < 0.4 ∧ signal ≠ "HOLD" then [vNoteLowConf signal] else [])) ∧
    (¬((regime = "BEAR" ∧ signal = "BUY" ∧ (confidence < 0.6 ∨ regimeConf > 0.8)) ∨
       (risk > 0.8 ∧ signal ≠ "HOLD") ∨
       (regime = "BULL" ∧ signal = "SELL" ∧ regimeConf > 0.85) ∨
       (regime = "BEAR" ∧ signal = "BUY" ∧ regimeConf > 0.85) ∨
       (confidence < 0.4 ∧ signal ≠ "HOLD")) →
      (validateSignal signal confidence regime regimeConf risk).1 = signal ∧
      (validateSignal signal confidence regime regimeConf risk).2 = [vNotePassed]) ∧
    (signal ≠ "HOLD" →
      ((validateSignal signal confidence regime regimeConf risk).1 = "HOLD" ↔
       ((regime = "BEAR" ∧ signal = "BUY" ∧ (confidence < 0.6 ∨ regimeConf > 0.8)) ∨
        (risk > 0.8 ∧ signal ≠ "HOLD") ∨
        (regime = "BULL" ∧ signal = "SELL" ∧ regimeConf > 0.85) ∨
        (regime = "BEAR" ∧ signal = "BUY" ∧ regimeConf > 0.85) ∨
        (confidence < 0.4 ∧ signal ≠ "HOLD")))) := by
  simp only [validateSignal]
  split_ifs <;> simp_all <;>
    · intro hn
      constructor <;>
        · by_contra hc
          rw [not_le] at hc
          simp_all

/-- C4 witness: for a raw Contrarian BUY (confidence 0.595) in a BEAR
regime with regime confidence 0.90 and risk 0.425, rules (a) and (d) both
fire, both notes are recorded, and the final signal is HOLD. -/
theorem validation_rules_independent_witness :
    (validateSignal "BUY" 0.595 "BEAR" 0.90 0.425).1 = "HOLD" ∧
    (validateSignal "BUY" 0.595 "BEAR" 0.90 0.425).2 =
      [vNoteBearBuy, vNoteBearBuyStrong] :=
  ⟨((validation_rules_independent "BUY" 0.595 "BEAR" 0.90 0.425).1
      (Or.inl (by decide))).1, by decide⟩

/-- Helper: the unemployment block always votes — +2 bullish, +2 bearish
or +1 bullish — so it contributes at least one signal. -/
theorem unemployment_always_votes (u : ℚ) :
    1 ≤ (unemploymentVotes u).1 + (unemploymentVotes u).2 := by
  unfold unemploymentVotes
  split_ifs <;> simp

/-- Helper: the inflation block always votes — +2 bullish, +2 bearish or
+1 bearish — so it contributes at least one signal. -/
theorem inflation_always_votes (i : ℚ) :
    1 ≤ (inflationVotes i).1 + (inflationVotes i).2 := by
  unfold inflationVotes
  split_ifs <;> simp

/-- C5 counterexample: the indicator set with every indicator in its
moderate band (VIX 22, unemployment 4.7, inflation 3.8, fed rate 4.5,
GDP 2.0 — the spec's notion of an all-neutral set) yields tallies
(1 bullish, 1 bearish), not (0,0), and is classified TRANSITION with
confidence 1.0, not BEAR: the unemployment and inflation neutral bands
still vote, so the (0,0) → BEAR/1.0 edge case is not what an all-neutral
input produces. -/
theorem allneutral_transition_cex :
    (classifyRegime ⟨22, 4.7, 3.8, 4.5, some 2⟩).bullish = 1 ∧
    (classifyRegime ⟨22, 4.7, 3.8, 4.5, some 2⟩).bearish = 1 ∧
    (classifyRegime ⟨22, 4.7, 3.8, 4.5, some 2⟩).regime = "TRANSITION" ∧
    (classifyRegime ⟨22, 4.7, 3.8, 4.5, some 2⟩).confidence = 1 ∧
    (classifyRegime ⟨22, 4.7, 3.8, 4.5, some 2⟩).regime ≠ "BEAR" := by
  decide

/-- C5 (amended): classify computes bullishRatio = bullish/(bullish+bearish)
(with the source's fallback to 0 when both tallies are zero), classifies
BULL with confidence ratio when ratio ≥ 0.65, BEAR with confidence 1-ratio
when ratio ≤ 0.35, and TRANSITION with confidence 1-|0.5-ratio|*2 otherwise
(stored rounded to three decimals as in the source's result dict); however
every indicator set produces at least two signals — the unemployment and
inflation branches always vote — so tallies (0,0), and with them the
documented BEAR/1.0 all-neutral edge case, are unreachable. -/
theorem classify_formula_and_tallies (ind : MacroIndicators) :
    2 ≤ bullishSignals ind + bearishSignals ind ∧
    (classifyRegime ind).bullish = bullishSignals ind ∧
    (classifyRegime ind).bearish = bearishSignals ind ∧
    (classifyRegime ind).bullish_ratio =
      pyRound3 (if bullishSignals ind + bearishSignals ind > 0
        then (bullishSignals ind : ℚ) / ((bullishSignals ind + bearishSignals ind : ℕ) : ℚ)
        else 0) ∧
    ((classifyRegime ind).regime, (classifyRegime ind).confidence) =
      (if (if bullishSignals ind + bearishSignals ind > 0
            then (bullishSignals ind : ℚ) / ((bullishSignals ind + bearishSignals ind : ℕ) : ℚ)
            else 0) ≥ 0.65 then
         ("BULL", pyRound3 (if bullishSignals ind + bearishSignals ind > 0
            then (bullishSignals ind : ℚ) / ((bullishSignals ind + bearishSignals ind : ℕ) : ℚ)
            else 0))
       else if (if bullishSignals ind + bearishSignals ind > 0
            then (bullishSignals ind : ℚ) / ((bullishSignals ind + bearishSignals ind : ℕ) : ℚ)
            else 0) ≤ 0.35 then
         ("BEAR", pyRound3 (1 - (if bullishSignals ind + bearishSignals ind > 0
            then (bullishSignals ind : ℚ) / ((bullishSignals ind + bearishSignals ind : ℕ) : ℚ)
            else 0)))
       else
         ("TRANSITION", pyRound3 (1 - |0.5 - (if bullishSignals ind + bearishSignals ind > 0
            then (bullishSignals ind : ℚ) / ((bullishSignals ind + bearishSignals ind : ℕ) : ℚ)
            else 0)| * 2))) := by
  refine ⟨?_, rfl, rfl, rfl, ?_⟩
  · have hu := unemployment_always_votes ind.unemployment_rate
    have hi := inflation_always_votes ind.inflation_rate
    unfold bullishSignals bearishSignals
    omega
  · simp only [classifyRegime]
    split_ifs <;> rfl

/-- C6 counterexample: for {VIX 15, unemployment 3.5, inflation 2.0, fed
rate 2.5, gdpGrowth missing} the source reads gdp_growth as 0, which votes
bearish (0 < 1.0): the bearish tally is 1 and the confidence 0.875,
whereas the claimed absent-signal semantics would contribute no vote. -/
theorem gdp_missing_bearish_vote_cex :
    (classifyRegime ⟨15, 3.5, 2.0, 2.5, none⟩).bearish = 1 ∧
    (classifyRegime ⟨15, 3.5, 2.0, 2.5, none⟩).confidence = 0.875 ∧
    gdpVotes ((none : Option ℚ).getD 0) = (0, 1) ∧
    gdpVotesAbsent none = (0, 0) := by
  decide

/-- C6 (amended): a missing gdpGrowth is not an absent signal — the source
defaults it to the value 0 (`indicators.get("gdp_growth", 0)`), so a set
with gdpGrowth missing classifies exactly like the same set with
gdpGrowth = 0, and its bearish tally always receives the vote of the 0
value (0 < 1.0 → +1 bearish). -/
theorem gdp_missing_defaults_zero (ind : MacroIndicators)
    (h : ind.gdp_growth = none) :
    classifyRegime ind = classifyRegime { ind with gdp_growth := some 0 } ∧
    1 ≤ bearishSignals ind := by
  obtain ⟨v, u, i, f, g⟩ := ind
  cases h
  constructor
  · rfl
  · have hg : (gdpVotes ((none : Option ℚ).getD 0)).2 = 1 := by decide
    unfold bearishSignals
    simp only at hg ⊢
    omega

/-- C6 witness: the amended claim applied at the concrete all-bullish set
with gdpGrowth missing. -/
theorem gdp_missing_defaults_zero_witness :
    classifyRegime ⟨15, 3.5, 2.0, 2.5, none⟩ =
      classifyRegime ⟨15, 3.5, 2.0, 2.5, some 0⟩ ∧
    1 ≤ bearishSignals ⟨15, 3.5, 2.0, 2.5, none⟩ :=
  gdp_missing_defaults_zero ⟨15, 3.5, 2.0, 2.5, none⟩ rfl

/-- C7 counterexample: an out-of-range sentiment score (2.0, outside
[-1,1]) is consumed verbatim and produces an ordinary Strong BUY, and an
unrecognized regime string ("SIDEWAYS") silently falls through the else
branches to a HOLD result — there is no InvalidInput failure path at all. -/
theorem no_invalid_input_cex :
    (generateSignal ⟨2, "positive", 0.85⟩ ⟨"BULL", 0.80⟩ none).signal = "BUY" ∧
    (generateSignal ⟨2, "positive", 0.85⟩ ⟨"BULL", 0.80⟩ none).factors_sentiment_score = 2 ∧
    (generateSignal ⟨0.75, "positive", 0.85⟩ ⟨"SIDEWAYS", 0.80⟩ none).signal = "HOLD" ∧
    (generateSignal ⟨0.75, "positive", 0.85⟩ ⟨"SIDEWAYS", 0.80⟩ none).risk_score = 0.256 := by
  decide

/-- C7 (amended): the core performs no input validation and has no
InvalidInput error: generateSignal is a total function that echoes every
input verbatim into its factors (no clamping), and an unrecognized regime
string falls through the else branches — the cascade defaults to HOLD,
the alignment and divergence computations use the TRANSITION formula
|score|*0.5, and the base-risk factor uses the BULL value 0.3. -/
theorem inputs_consumed_verbatim (sd : SentimentData) (md : MacroData)
    (mkt : Option ℚ) :
    ((generateSignal sd md mkt).factors_sentiment_score = sd.sentiment_score ∧
     (generateSignal sd md mkt).factors_sentiment_label = sd.overall_label ∧
     (generateSignal sd md mkt).factors_sentiment_confidence = sd.confidence ∧
     (generateSignal sd md mkt).factors_regime = md.regime ∧
     (generateSignal sd md mkt).factors_regime_confidence = md.regime_confidence) ∧
    (md.regime ≠ "BULL" → md.regime ≠ "BEAR" → md.regime ≠ "TRANSITION" →
      ((determineSignal sd.sentiment_score sd.overall_label sd.confidence
          md.regime md.regime_confidence).1 = "HOLD" ∧
       calculateAlignmentScore sd.sentiment_score md.regime =
         |sd.sentiment_score| * 0.5 ∧
       calculateDivergenceRisk sd.sentiment_score md.regime =
         |sd.sentiment_score| * 0.5 ∧
       (if md.regime = "BEAR" then (0.7 : ℚ)
        else if md.regime = "TRANSITION" then 0.5 else 0.3) = 0.3)) := by
  refine ⟨⟨rfl, rfl, rfl, rfl, rfl⟩, ?_⟩
  intro h1 h2 h3
  refine ⟨?_, ?_, ?_, ?_⟩
  · simp only [determineSignal]
    split_ifs <;> simp_all
  · simp only [calculateAlignmentScore, if_neg h1, if_neg h2]
  · simp only [calculateDivergenceRisk, if_neg h1, if_neg h2]
  · simp only [if_neg h2, if_neg h3]

/-- C7 witness: the amended claim applied at the unrecognized regime
"SIDEWAYS". -/
theorem inputs_consumed_verbatim_witness :
    (determineSignal 0.75 "positive" 0.85 "SIDEWAYS" 0.80).1 = "HOLD" ∧
    calculateAlignmentScore 0.75 "SIDEWAYS" = |(0.75 : ℚ)| * 0.5 ∧
    calculateDivergenceRisk 0.75 "SIDEWAYS" = |(0.75 : ℚ)| * 0.5 ∧
    (if ("SIDEWAYS" : String) = "BEAR" then (0.7 : ℚ)
     else if ("SIDEWAYS" : String) = "TRANSITION" then 0.5 else 0.3) = 0.3 :=
  (inputs_consumed_verbatim ⟨0.75, "positive", 0.85⟩ ⟨"SIDEWAYS", 0.80⟩ none).2
    (by decide) (by decide) (by decide)

/-- C8: for valid inputs over the three documented regimes, the risk score
equals the arithmetic mean of exactly the available factors — 1-sentConf,
1-regimeConf, divergenceRisk(score,regime) per the claimed case split,
optionally min(1, volatility/0.5), and the fixed regime base risk
(BEAR 0.7, TRANSITION 0.5, BULL 0.3) — and always lies in [0,1]. -/
theorem risk_score_mean_of_factors (score sentConf regimeConf : ℚ)
    (regime : String) (vol : Option ℚ)
    (hreg : regime = "BULL" ∨ regime = "BEAR" ∨ regime = "TRANSITION")
    (hs1 : -1 ≤ score) (hs2 : score ≤ 1)
    (hc1 : 0 ≤ sentConf) (hc2 : sentConf ≤ 1)
    (hm1 : 0 ≤ regimeConf) (hm2 : regimeConf ≤ 1)
    (hv : ∀ v, vol = some v → 0 ≤ v) :
    calculateRiskScore score sentConf regime regimeConf vol =
      (riskFactorsSpec score sentConf regimeConf regime vol).sum /
        ((riskFactorsSpec score sentConf regimeConf regime vol).length : ℚ) ∧
    0 ≤ calculateRiskScore score sentConf regime regimeConf vol ∧
    calculateRiskScore score sentConf regime regimeConf vol ≤ 1 := by
  have habs1 : |score| ≤ 1 := abs_le.mpr ⟨hs1, hs2⟩
  have habs0 : 0 ≤ |score| := abs_nonneg score
  have s1 : ("BULL" : String) ≠ "BEAR" := by decide
  have s2 : ("BULL" : String) ≠ "TRANSITION" := by decide
  have s3 : ("BEAR" : String) ≠ "BULL" := by decide
  have s4 : ("BEAR" : String) ≠ "TRANSITION" := by decide
  have s5 : ("TRANSITION" : String) ≠ "BULL" := by decide
  have s6 : ("TRANSITION" : String) ≠ "BEAR" := by decide
  have hlist : riskFactors score sentConf regime regimeConf vol =
      riskFactorsSpec score sentConf regimeConf regime vol := by
    rcases hreg with h | h | h <;> subst h <;> rcases vol with _ | v <;>
      simp [riskFactors, riskFactorsSpec, calculateDivergenceRisk,
        s1, s2, s3, s4, s5, s6]
  have hmem : ∀ x ∈ riskFactorsSpec score sentConf regimeConf regime vol,
      0 ≤ x ∧ x ≤ 1 := by
    intro x hx
    rcases vol with _ | v
    · simp [riskFactorsSpec] at hx
      rcases hx with rfl | rfl | rfl | rfl
      · constructor <;> linarith
      · constructor <;> linarith
      · split_ifs <;> constructor <;> linarith
      · split_ifs <;> constructor <;> linarith
    · have hv0 : 0 ≤ v := hv v rfl
      simp [riskFactorsSpec] at hx
      rcases hx with rfl | rfl | rfl | rfl | rfl
      · constructor <;> linarith
      · constructor <;> linarith
      · split_ifs <;> constructor <;> linarith
      · constructor
        · exact le_min (by norm_num) (div_nonneg hv0 (by norm_num))
        · exact min_le_left 1 _
      · split_ifs <;> constructor <;> linarith
  have hs0 : 0 ≤ (riskFactorsSpec score sentConf regimeConf regime vol).sum :=
    List.sum_nonneg fun x hx => (hmem x hx).1
  have hsum1 : (riskFactorsSpec score sentConf regimeConf regime vol).sum ≤
      ((riskFactorsSpec score sentConf regimeConf regime vol).length : ℚ) := by
    calc (riskFactorsSpec score sentConf regimeConf regime vol).sum ≤
        (riskFactorsSpec score sentConf regimeConf regime vol).length • (1 : ℚ) :=
          List.sum_le_card_nsmul _ 1 fun x hx => (hmem x hx).2
      _ = ((riskFactorsSpec score sentConf regimeConf regime vol).length : ℚ) := by
          simp
  have hlenpos : (0 : ℚ) <
      ((riskFactorsSpec score sentConf regimeConf regime vol).length : ℚ) := by
    rcases vol with _ | v <;> simp [riskFactorsSpec]
  have hm0 : 0 ≤ (riskFactorsSpec score sentConf regimeConf regime vol).sum /
      ((riskFactorsSpec score sentConf regimeConf regime vol).length : ℚ) :=
    div_nonneg hs0 (le_of_lt hlenpos)
  have hmean1 : (riskFactorsSpec score sentConf regimeConf regime vol).sum /
      ((riskFactorsSpec score sentConf regimeConf regime vol).length : ℚ) ≤ 1 :=
    (div_le_one hlenpos).2 hsum1
  have hcrs : calculateRiskScore score sentConf regime regimeConf vol =
      max 0 (min 1 ((riskFactorsSpec score sentConf regimeConf regime vol).sum /
        ((riskFactorsSpec score sentConf regimeConf regime vol).length : ℚ))) := by
    rw [calculateRiskScore, hlist]
  rw [hcrs, min_eq_right hmean1, max_eq_right hm0]
  exact ⟨rfl, hm0, hmean1⟩

/-- C8 witness: at score 0.75, sentiment confidence 0.85, regime BULL with
confidence 0.80 and volatility 0.2, the risk score is the mean of the five
available factors and lies in [0,1]. -/
theorem risk_score_mean_of_factors_witness :
    calculateRiskScore 0.75 0.85 "BULL" 0.80 (some 0.2) =
      (riskFactorsSpec 0.75 0.85 0.80 "BULL" (some 0.2)).sum /
        ((riskFactorsSpec 0.75 0.85 0.80 "BULL" (some 0.2)).length : ℚ) ∧
    0 ≤ calculateRiskScore 0.75 0.85 "BULL" 0.80 (some 0.2) ∧
    calculateRiskScore 0.75 0.85 "BULL" 0.80 (some 0.2) ≤ 1 :=
  risk_score_mean_of_factors 0.75 0.85 0.80 "BULL" (some 0.2)
    (Or.inl rfl) (by norm_num) (by norm_num) (by norm_num) (by norm_num)
    (by norm_num) (by norm_num)
    (by intro v h; injection h with h; rw [← h]; norm_num)

/-- Helper: one history-saving step with a non-empty alert batch leaves at
most 1000 stored entries. -/
theorem saveAlertHistory_length_le {α : Type} (history alerts : List α)
    (ha : alerts ≠ []) : (saveAlertHistory history alerts).length ≤ 1000 := by
  unfold saveAlertHistory
  rw [if_neg (by simpa [List.isEmpty_iff] using ha)]
  rw [List.length_drop]
  omega

/-- C9: the stored alert history is bounded and FIFO: a checkAlerts
invocation that stores a non-empty alert batch leaves at most 1000
entries, evicting the oldest first (the stored history is the suffix of
old-history ++ new-entries obtained by dropping from the front), and any
sequence of invocations each storing at least one alert keeps the history
length at most 1000. -/
theorem alert_history_bounded_fifo :
    (∀ (α : Type) (history alerts : List α), alerts ≠ [] →
      (saveAlertHistory history alerts).length ≤ 1000 ∧
      saveAlertHistory history alerts =
        (history ++ alerts).drop ((history ++ alerts).length - 1000)) ∧
    (∀ (α : Type) (history0 : List α) (batches : List (List α)),
      batches ≠ [] → (∀ b ∈ batches, b ≠ []) →
      (batches.foldl saveAlertHistory history0).length ≤ 1000) := by
  constructor
  · intro α history alerts ha
    refine ⟨saveAlertHistory_length_le history alerts ha, ?_⟩
    unfold saveAlertHistory
    rw [if_neg (by simpa [List.isEmpty_iff] using ha)]
  · intro α history0 batches
    induction batches generalizing history0 with
    | nil => intro hne _; exact absurd rfl hne
    | cons b bs ih =>
      intro _ hall
      rcases bs with _ | ⟨b2, bs2⟩
      · simpa using saveAlertHistory_length_le history0 b (hall b (by simp))
      · simp only [List.foldl_cons]
        exact ih (saveAlertHistory history0 b) (by simp)
          fun x hx => hall x (List.mem_cons_of_mem b hx)

/-- C9 witness: a 1005-entry history plus a one-alert batch is trimmed to
1000 entries by dropping the 6 oldest of the 1006 candidates. -/
theorem alert_history_bounded_fifo_witness :
    ((saveAlertHistory (List.replicate 1005 (0 : ℕ)) [1]).length ≤ 1000 ∧
     saveAlertHistory (List.replicate 1005 (0 : ℕ)) [1] =
       (List.replicate 1005 (0 : ℕ) ++ [1]).drop
         ((List.replicate 1005 (0 : ℕ) ++ [1]).length - 1000)) ∧
    ((([[1], [2]] : List (List ℕ)).foldl saveAlertHistory []).length ≤ 1000) :=
  ⟨alert_history_bounded_fifo.1 ℕ (List.replicate 1005 0) [1] (by simp),
   alert_history_bounded_fifo.2 ℕ [] [[1], [2]] (by simp) (by simp)⟩

/-- C2 (bug evidence): the three-call checkAlerts sequence from a fresh
state with regimes BULL, BEAR, BEAR.  Call 1 emits nothing and persists
the BULL baseline; call 2 emits exactly one CRITICAL market-wide
REGIME_CHANGE and rewrites the persisted file to BEAR — but
`self.previous_regime` keeps the stale BULL — so call 3, with the same
BEAR regime, emits a second REGIME_CHANGE where the claim (and the
source's own "Update previous regime" comment) require none. -/
theorem regime_change_replay_bug :
    (checkForAlerts ⟨none, none⟩
        ⟨"AAPL", 0, "neutral", 0.5, some "BULL", none⟩).1 = [] ∧
    (checkForAlerts ⟨none, none⟩
        ⟨"AAPL", 0, "neutral", 0.5, some "BULL", none⟩).2 =
      ⟨some "BULL", some "BULL"⟩ ∧
    (checkForAlerts ⟨some "BULL", some "BULL"⟩
        ⟨"AAPL", 0, "neutral", 0.5, some "BEAR", none⟩).1 =
      [⟨"REGIME_CHANGE", "CRITICAL", none⟩] ∧
    (checkForAlerts ⟨some "BULL", some "BULL"⟩
        ⟨"AAPL", 0, "neutral", 0.5, some "BEAR", none⟩).2 =
      ⟨some "BULL", some "BEAR"⟩ ∧
    (checkForAlerts ⟨some "BULL", some "BEAR"⟩
        ⟨"AAPL", 0, "neutral", 0.5, some "BEAR", none⟩).1 =
      [⟨"REGIME_CHANGE", "CRITICAL", none⟩] := by
  decide

end Claims

end FintechAI
